import Mathlib

/-!
Verification of the WindowMaster control system: a shallow embedding of
the device firmware (quadrature encoder, USB HID link) and of the host
controller (HID worker and coordinator runtime), with theorems checking
the natural-language specification against the code.

Conventions of the embedding:
* Rust `i8`/`u8` fields become `Int`/`Nat`; where 8-bit overflow can
  occur, the two's-complement wrap is written explicitly (the firmware is
  built in release mode, where integer overflow wraps).
* Fallible operations become `Except`; external I/O outcomes (pin levels,
  USB transfer results, HID read results, wall-clock instants) are passed
  in as explicit arguments.
* `HashMap`s become association lists, `Instant`s become milliseconds
  as `Nat`.
-/

namespace WindowMaster

/-! ### Firmware: quadrature encoder (`firmware/src/encoder.rs`) -/

/-- `Step` from `encoder.rs`: a step increment returned by an encoder. -/
inductive Step
  | none
  | backward
  | forward
deriving DecidableEq, Repr

/-- `Step::value` from `encoder.rs` lines 20-28. -/
def Step.value : Step → Int
  | Step.none => 0
  | Step.backward => -1
  | Step.forward => 1

/-- The mutable state of `Quadrature` from `encoder.rs`: the last
quadrature index, or `none` before the first poll. The pins themselves
are external inputs. -/
structure Quadrature where
  old_index : Option Int
deriving DecidableEq, Repr

/-- `index` from `encoder.rs` lines 76-83: the Gray-code mapping from the
two sampled pin levels to an index in `0..3`. -/
def index (a b : Bool) : Int :=
  match a, b with
  | false, false => 0
  | true, false => 1
  | true, true => 2
  | false, true => 3

/-- The `Skipped` variant of `encoder::Error`. Pin-read failures happen
before the decoding logic and are modelled upstream: `poll` receives the
successfully sampled levels. -/
inductive EncoderError
  | skipped
deriving DecidableEq, Repr

/-- `Quadrature::poll` from `encoder.rs` lines 55-73, for one poll with
sampled pin levels `a` and `b`. Returns the emitted result and the
updated decoder state. The source computes `(new_index + (4 - old_index)) % 4`
and matches it against `0..3` (other values are unreachable: `Int.emod`
by `4` always lands in `0..3`). -/
def Quadrature.poll (q : Quadrature) (a b : Bool) : Except EncoderError Step × Quadrature :=
  let new_index := index a b
  let result : Except EncoderError Step :=
    match q.old_index with
    | some old =>
      let d := (new_index + (4 - old)) % 4
      if d = 0 then Except.ok Step.none
      else if d = 1 then Except.ok Step.forward
      else if d = 2 then Except.error EncoderError.skipped
      else Except.ok Step.backward
    | Option.none => Except.ok Step.none
  (result, ⟨some new_index⟩)

/-! ### Firmware: USB HID link (`firmware/src/link.rs`) -/

/-- The staged `Report` from `link.rs` lines 103-108: six signed 8-bit
encoder deltas, a button bitmask byte and the led (indicator) bitmask
byte last received from the host. -/
structure Report where
  encoders : Fin 6 → Int
  buttons : Nat
  leds : Nat

/-- The all-zero report, `Report`'s `Default`. -/
def Report.new : Report := ⟨fun _ => 0, 0, 0⟩

/-- `Report::reset` from `link.rs` lines 112-116: resets all relative
inputs (the encoder deltas) to zero; `buttons` and `leds` are untouched. -/
def Report.reset (r : Report) : Report :=
  { r with encoders := fun _ => 0 }

/-- Two's-complement wrap of an `Int` into the `i8` range. The firmware
uses plain `+=` on `i8`, which wraps in release builds. -/
def wrap8 (x : Int) : Int := (x + 128) % 256 - 128

/-- `UsbHid::update_encoder` from `link.rs` lines 73-75:
`self.report.encoders[index] += step.value()` on an `i8` field. -/
def UsbHid.update_encoder (r : Report) (i : Fin 6) (s : Step) : Report :=
  { r with encoders := Function.update r.encoders i (wrap8 (r.encoders i + s.value)) }

/-- `UsbHid::is_led_on` from `link.rs` lines 85-87:
`(self.report.leds & (1 << index)) != 0`. -/
def UsbHid.is_led_on (r : Report) (i : Fin 6) : Bool :=
  (r.leds &&& (1 <<< (i : Nat))) != 0

/-- `UsbHid::poll` from `link.rs` lines 57-71. The outcomes of the USB
stack calls are inputs: `device_polled` is the result of
`UsbDevice::poll`, `push_ok` tells whether `push_input` accepted the
staged report, and `pull` is the result of `pull_raw_output` (`none` for
an error, `some bytes` for a successful read). When the push is accepted
the staged report is reset. The pulled output bytes are read into a
stack buffer and then dropped — the source only has a `TODO leds`
comment where the led mask update would go — so `leds` is never
written. -/
def UsbHid.poll (device_polled push_ok : Bool) (pull : Option (List Nat)) (r : Report) : Report :=
  if device_polled then
    let r1 := if push_ok then r.reset else r
    match pull with
    | some _bytes => r1
    | Option.none => r1
  else r

/-! ### Host: shared message and identifier types

The canonical `host-controller/src/audio.rs` module defining the shared
audio message types is not part of this source snapshot (the file of that
name is an older exploratory version); the types below that come from it
are modelled from the spec and carry a note saying so. `f32` payloads
(volumes) are only ever carried by the components verified here, never
computed on, so they are represented by an opaque discrete carrier
(`Int`) that preserves equality. -/

/-- Process-local stream identifier (`StreamId`). -/
abbrev StreamId := Nat

/-- Process-local device identifier (`DeviceId`, `control.rs` line 98). -/
abbrev DeviceId := Nat

/-- Modelled from the spec: `StreamState` from the missing `audio`
module — `{volume: real in [0,1], muted: bool}` with default
`{0.0, false}`. -/
structure StreamState where
  volume : Int
  muted : Bool
deriving DecidableEq, Repr

/-- Modelled from the spec: `StreamState::default()` is `{0.0, false}`. -/
def StreamState.default : StreamState := ⟨0, false⟩

/-- `ChannelInput` from `control.rs` lines 73-83. -/
inductive ChannelInput
  | SetVolume (volume : Int)
  | StepVolume (steps : Int)
  | SetMuted (muted : Bool)
  | ToggleMuted
  | OpenMenu
  | CloseMenu
  | MenuNext
  | MenuPrevious
  | MenuSelect
deriving DecidableEq, Repr

/-- `ChannelOutput` from `control.rs` lines 91-95. -/
inductive ChannelOutput
  | StateChanged (state : StreamState)
  | MenuOpened
  | MenuClosed
deriving DecidableEq, Repr

/-- Modelled from the spec: `StreamControl` from the missing `audio`
module — `{SetVolume(f), StepVolume(i), SetMuted(b), ToggleMuted}`. -/
inductive StreamControl
  | SetVolume (volume : Int)
  | StepVolume (steps : Int)
  | SetMuted (muted : Bool)
  | ToggleMuted
deriving DecidableEq, Repr

/-- Modelled from the spec: `AudioControl::StreamControl{stream_id, control}`,
the only control message the coordinator sends to the audio backend. -/
structure AudioControlMsg where
  stream_id : StreamId
  control : StreamControl
deriving DecidableEq, Repr

/-- `ControlOutput::ChannelOutput(device_id, channel_index, channel_output)`
from `control.rs` lines 86-88. -/
structure ControlOutputMsg where
  device : DeviceId
  channel_index : Nat
  output : ChannelOutput
deriving DecidableEq, Repr

/-! ### Host HID worker (`backend/hidapi/control.rs`) -/

/-- `LONG_PRESS_DURATION` (`control.rs` line 369), in milliseconds. -/
def LONG_PRESS_DURATION : Nat := 500

/-- `rev1::ChannelState` (`control.rs` lines 402-408). Instants are
milliseconds as `Nat`. -/
structure ChannelState where
  pressed : Bool
  long_pressed : Bool
  long_press_timeout : Option Nat
  menu_open : Bool
  state : StreamState
deriving DecidableEq, Repr

/-- The initial per-channel state of `rev1::DeviceState::new`
(`control.rs` lines 410-421), with the menu-open flag exposed as a
parameter so that menu-open and menu-closed channels can be described
uniformly. -/
def ChannelState.idle (menu_open : Bool) : ChannelState :=
  ⟨false, false, Option.none, menu_open, StreamState.default⟩

/-- The button-handling block of `Device::poll` (`control.rs` lines
292-329) for one channel and one input-report sample taken at instant
`now`: arm the 500 ms deadline on a rising edge; while held, fire
`OpenMenu`/`CloseMenu` once the deadline has passed and latch
`long_pressed`; on a falling edge emit `MenuSelect`/`ToggleMuted` unless
a long press was latched; finally record the sampled level. Returns the
updated channel state and the emitted inputs. -/
def button_step (now : Nat) (pressed : Bool) (c : ChannelState) : ChannelState × List ChannelInput :=
  if pressed then
    let c1 := if !c.pressed then { c with long_press_timeout := some (now + LONG_PRESS_DURATION) } else c
    match c1.long_press_timeout with
    | some timeout =>
      if timeout ≤ now then
        ({ c1 with long_press_timeout := Option.none, long_pressed := true, pressed := true },
         [if c1.menu_open then ChannelInput.CloseMenu else ChannelInput.OpenMenu])
      else ({ c1 with pressed := true }, [])
    | Option.none => ({ c1 with pressed := true }, [])
  else
    let evs :=
      if c.pressed && !c.long_pressed then
        [if c.menu_open then ChannelInput.MenuSelect else ChannelInput.ToggleMuted]
      else []
    ({ c with pressed := false, long_pressed := false, long_press_timeout := Option.none }, evs)

/-- Runs `button_step` over a sequence of `(instant, sampled level)`
pairs, collecting the emitted inputs in order. -/
def button_run (samples : List (Nat × Bool)) (c : ChannelState) : ChannelState × List ChannelInput :=
  match samples with
  | [] => (c, [])
  | (now, p) :: rest =>
    let (c1, evs) := button_step now p c
    let (c2, evs2) := button_run rest c1
    (c2, evs ++ evs2)

/-- `rev1::Input` (`control.rs` lines 385-388): six signed encoder deltas
and the button bitmask byte. -/
structure InputReport where
  encoders : Fin 6 → Int
  buttons : Nat

/-- The per-channel body of the report loop in `Device::poll`
(`control.rs` lines 258-330): the encoder block (`MenuNext`/`MenuPrevious`
per step while the menu is open, a single `StepVolume` otherwise)
followed by the button block. -/
def channel_report_step (now : Nat) (rep : InputReport) (i : Fin 6) (c : ChannelState) :
    ChannelState × List ChannelInput :=
  let steps := rep.encoders i
  let encEvs :=
    if steps ≠ 0 then
      if c.menu_open then
        if 0 < steps then List.replicate steps.toNat ChannelInput.MenuNext
        else List.replicate (-steps).toNat ChannelInput.MenuPrevious
      else [ChannelInput.StepVolume steps]
    else []
  let pressed := (rep.buttons &&& (1 <<< (i : Nat))) != 0
  let (c1, btnEvs) := button_step now pressed c
  (c1, encEvs ++ btnEvs)

/-- `rev1::DeviceState` (`control.rs` lines 397-399): the six channel
states of one attached device. -/
structure Rev1State where
  channels : Fin 6 → ChannelState

/-- `rev1::DeviceState::new` (`control.rs` lines 410-421). -/
def Rev1State.new : Rev1State := ⟨fun _ => ChannelState.idle false⟩

/-- One input report processed against all six channels, in index order
(`control.rs` lines 257-330). -/
def report_step (now : Nat) (rep : InputReport) (s : Rev1State) : Rev1State × List ChannelInput :=
  (List.finRange 6).foldl
    (fun acc i =>
      let (c1, evs) := channel_report_step now rep i (acc.1.channels i)
      (⟨Function.update acc.1.channels i c1⟩, acc.2 ++ evs))
    (s, [])

/-- A HID read or write failure (`HidError`). -/
inductive HidError
  | readFailed
  | writeFailed
deriving DecidableEq, Repr

/-- The output byte built by `Device::poll` (`control.rs` lines 340-346):
bit `i` is set iff `muted XOR (menu_open AND blink_phase)`. The blink
phase is wall-clock float arithmetic and is passed in as a boolean. -/
def output_byte (blink : Bool) (s : Rev1State) : Nat :=
  (List.finRange 6).foldl
    (fun acc i =>
      if Bool.xor (s.channels i).state.muted ((s.channels i).menu_open && blink)
      then acc ||| (1 <<< (i : Nat)) else acc)
    0

/-- The external I/O script of one `Device::poll` call: the sampling
instant, the successive results of the nonblocking `read` (the implicit
end of the list is the `0`-bytes "no more data" read), whether the
`write` of the output report succeeds, and the blink phase. -/
structure PollScript where
  now : Nat
  reads : List (Except HidError InputReport)
  write_ok : Bool
  blink : Bool

/-- What one `Device::poll` call produced: the final channel states, the
channel inputs sent to the coordinator, the output byte written (if the
write happened) and the `Result` the call returned. -/
structure PollResult where
  state : Rev1State
  events : List ChannelInput
  written : Option Nat
  result : Except HidError Unit

/-- The read loop of `Device::poll` (`control.rs` lines 246-331): reports
are processed until a read returns no data; a read error aborts the loop
via `?`, keeping the state mutations and the sends already made. Returns
the state, the sends, the error if any, and the `should_output` flag. -/
def device_poll_reads (now : Nat) (reads : List (Except HidError InputReport)) (s : Rev1State) :
    Rev1State × List ChannelInput × Option HidError × Bool :=
  match reads with
  | [] => (s, [], Option.none, false)
  | Except.error e :: _ => (s, [], some e, false)
  | Except.ok rep :: rest =>
    let (s1, evs) := report_step now rep s
    let (s2, evs2, err, _) := device_poll_reads now rest s1
    (s2, evs ++ evs2, err, true)

/-- `Device::poll` (`control.rs` lines 242-354): drain the input reports,
then, if at least one report arrived, build and write the output report;
a read or write failure is returned as `Err` after the state mutations
and sends already performed. -/
def device_poll (io : PollScript) (s : Rev1State) : PollResult :=
  let (s1, evs, err, should_output) := device_poll_reads io.now io.reads s
  match err with
  | some e => ⟨s1, evs, Option.none, Except.error e⟩
  | Option.none =>
    if should_output then
      if io.write_ok then ⟨s1, evs, some (output_byte io.blink s1), Except.ok ()⟩
      else ⟨s1, evs, Option.none, Except.error HidError.writeFailed⟩
    else ⟨s1, evs, Option.none, Except.ok ()⟩

/-- The device-polling pass of the worker's `Runtime::run` (`control.rs`
lines 122-124): every device in the registry is polled and the returned
`Result` is discarded with `.ok()`; the registry itself is not modified
by this pass. `io` gives each device's I/O script for the tick. -/
def poll_pass (devices : List (DeviceId × Rev1State)) (io : DeviceId → PollScript) :
    List (DeviceId × Rev1State) :=
  devices.map fun p => (p.1, (device_poll (io p.1) p.2).state)

/-! ### Host coordinator (`core.rs`) -/

/-- `ChannelId(DeviceId, usize)` from `core.rs` line 384. -/
structure ChannelId where
  device : DeviceId
  channel_index : Nat
deriving DecidableEq, Repr

/-- `Binding` from `core.rs` lines 411-416. -/
inductive Binding
  | Direct (stream_id : StreamId)
  | ActiveWindow
  | DefaultDevice
deriving DecidableEq, Repr

/-- `Stream` from `core.rs` lines 418-421: a stream-registry entry. -/
structure Stream where
  name : String
  state : StreamState
deriving DecidableEq, Repr

/-- `MenuOption` from `core.rs` lines 405-409. -/
structure MenuOption where
  name : String
  binding : Option Binding
deriving DecidableEq, Repr

/-- `Menu` from `core.rs` lines 386-389. -/
structure Menu where
  options : List MenuOption
  current_index : Nat
deriving DecidableEq, Repr

/-- `HashMap::get` on an association-list model of a hash map. -/
def alookup {α β : Type} [DecidableEq α] : List (α × β) → α → Option β
  | [], _ => Option.none
  | p :: rest, k => if p.1 = k then some p.2 else alookup rest k

/-- `HashMap::get_mut` followed by a mutation: the entry at the key, if
present, is mapped through `f`; an absent key leaves the map unchanged. -/
def aupdate {α β : Type} [DecidableEq α] (m : List (α × β)) (k : α) (f : β → β) : List (α × β) :=
  m.map fun p => if p.1 = k then (p.1, f p.2) else p

/-- `HashMap::remove` on the association-list model. -/
def aremove {α β : Type} [DecidableEq α] (m : List (α × β)) (k : α) : List (α × β) :=
  m.filter fun p => decide (p.1 ≠ k)

/-- `BiGraph::neighbors_of_left` (`bigraph.rs` lines 65-72) on the
edge-list model of the undirected bipartite graph; edges are kept in
insertion order, as `petgraph`'s `GraphMap` adjacency lists are. -/
def edgesOfLeft {L R : Type} [DecidableEq L] (es : List (L × R)) (l : L) : List R :=
  (es.filter fun e => decide (e.1 = l)).map Prod.snd

/-- `BiGraph::neighbors_of_right` (`bigraph.rs` lines 74-81). -/
def edgesOfRight {L R : Type} [DecidableEq R] (es : List (L × R)) (r : R) : List L :=
  (es.filter fun e => decide (e.2 = r)).map Prod.fst

/-- `BiGraph::remove_left` (`bigraph.rs` lines 32-34): removing a left
node removes its incident edges. -/
def removeLeft {L R : Type} [DecidableEq L] (es : List (L × R)) (l : L) : List (L × R) :=
  es.filter fun e => decide (e.1 ≠ l)

/-- `BiGraph::add_edge` (`bigraph.rs` lines 48-52): adding an existing
edge only replaces its `()` weight, so the edge set is unchanged;
otherwise the edge is appended. -/
def addEdge {L R : Type} [DecidableEq L] [DecidableEq R] (es : List (L × R)) (l : L) (r : R) :
    List (L × R) :=
  if (l, r) ∈ es then es else es ++ [(l, r)]

/-- The coordinator state owned by `Runtime` (`core.rs` lines 80-90),
without the four message-channel endpoints: the handlers below return
the messages they would send instead. -/
structure Runtime where
  streams : List (StreamId × Stream)
  bindings : List (ChannelId × Binding)
  menus : List (ChannelId × Menu)
  window_focus : Option StreamId
  default_device : Option StreamId
deriving DecidableEq, Repr

/-- `Runtime::binding_stream_id` (`core.rs` lines 333-339). -/
def Runtime.binding_stream_id (rt : Runtime) (b : Binding) : Option StreamId :=
  match b with
  | Binding.Direct stream_id => some stream_id
  | Binding.ActiveWindow => rt.window_focus
  | Binding.DefaultDevice => rt.default_device

/-- `Runtime::get_binding_state` (`core.rs` lines 328-331). -/
def Runtime.get_binding_state (rt : Runtime) (b : Binding) : Option Stream :=
  (rt.binding_stream_id b).bind fun stream_id => alookup rt.streams stream_id

/-- The state a binding evaluates to in `update_channel` /
`update_bound_channels`: the bound stream's registry state, or
`StreamState::default()` when the binding is dangling or unresolved. -/
def Runtime.resolved_state (rt : Runtime) (b : Binding) : StreamState :=
  ((rt.get_binding_state b).map Stream.state).getD StreamState.default

/-- `Runtime::update_channel` (`core.rs` lines 341-357): one
`StateChanged` per binding edge of the channel, carrying the resolved
state. -/
def Runtime.update_channel (rt : Runtime) (c : ChannelId) : List ControlOutputMsg :=
  (edgesOfLeft rt.bindings c).map fun b =>
    ⟨c.device, c.channel_index, ChannelOutput.StateChanged (rt.resolved_state b)⟩

/-- `Runtime::update_bound_channels` (`core.rs` lines 359-374): one
`StateChanged` carrying the binding's resolved state to every channel
with an edge to that binding. -/
def Runtime.update_bound_channels (rt : Runtime) (b : Binding) : List ControlOutputMsg :=
  let state := rt.resolved_state b
  (edgesOfRight rt.bindings b).map fun c =>
    ⟨c.device, c.channel_index, ChannelOutput.StateChanged state⟩

/-- The `AudioEvent::StreamEvent / StreamEvent::StateChanged` branch of
`Runtime::run` (`core.rs` lines 128-142): if the stream is registered,
store the new state, then update the channels bound `Direct(sid)` and,
when `sid` is the focused window's stream, the channels bound
`ActiveWindow`. Returns the new state and the `ChannelOutput` sends. -/
def Runtime.handle_state_changed (rt : Runtime) (sid : StreamId) (state : StreamState) :
    Runtime × List ControlOutputMsg :=
  match alookup rt.streams sid with
  | Option.none => (rt, [])
  | some _ =>
    let rt1 := { rt with streams := aupdate rt.streams sid fun s => { s with state := state } }
    let outs := rt1.update_bound_channels (Binding.Direct sid)
    let outs2 := if rt1.window_focus = some sid then rt1.update_bound_channels Binding.ActiveWindow
                 else []
    (rt1, outs ++ outs2)

/-- The common shape of the four volume/mute arms of
`Runtime::run` (`core.rs` lines 162-209): the four `for` loops are
textually identical except for the `StreamControl` they send — for each
binding edge of the channel, resolve it and, if it resolves, send the
control to that stream. -/
def Runtime.stream_controls (rt : Runtime) (c : ChannelId) (sc : StreamControl) :
    List AudioControlMsg :=
  (edgesOfLeft rt.bindings c).filterMap fun b =>
    (rt.binding_stream_id b).map fun stream_id => ⟨stream_id, sc⟩

/-- `Runtime::open_menu` (`core.rs` lines 234-273): fixed options
`None`, `Default Device`, `Active Window`, then one option per
registered stream, the suffix sorted by name (the registry iteration
order is the list order here). -/
def Runtime.open_menu (rt : Runtime) (c : ChannelId) : Runtime × List ControlOutputMsg :=
  let base := [⟨"None", Option.none⟩,
               ⟨"Default Device", some Binding.DefaultDevice⟩,
               ⟨"Active Window", some Binding.ActiveWindow⟩]
  let streamOpts : List MenuOption :=
    rt.streams.map fun p => ⟨p.2.name, some (Binding.Direct p.1)⟩
  let options := base ++ streamOpts.insertionSort fun a b => a.name ≤ b.name
  let menu : Menu := ⟨options, 0⟩
  ({ rt with menus := (aremove rt.menus c) ++ [(c, menu)] },
   [⟨c.device, c.channel_index, ChannelOutput.MenuOpened⟩])

/-- `Runtime::close_menu` (`core.rs` lines 275-287). -/
def Runtime.close_menu (rt : Runtime) (c : ChannelId) : Runtime × List ControlOutputMsg :=
  ({ rt with menus := aremove rt.menus c },
   [⟨c.device, c.channel_index, ChannelOutput.MenuClosed⟩])

/-- `Runtime::menu_next` (`core.rs` lines 289-295): clamp the cursor to
the last option. (With an open menu `options` is nonempty, so the `Nat`
truncation in `length - 1` is never exercised.) -/
def Runtime.menu_next (rt : Runtime) (c : ChannelId) : Runtime :=
  { rt with menus := aupdate rt.menus c fun m =>
      { m with current_index := min (m.current_index + 1) (m.options.length - 1) } }

/-- `Runtime::menu_previous` (`core.rs` lines 297-303): `saturating_sub`
is `Nat` subtraction. -/
def Runtime.menu_previous (rt : Runtime) (c : ChannelId) : Runtime :=
  { rt with menus := aupdate rt.menus c fun m =>
      { m with current_index := m.current_index - 1 } }

/-- `Runtime::bind` (`core.rs` lines 315-326): drop every edge of the
channel, add the new edge if there is one, then `update_channel`. -/
def Runtime.bind (rt : Runtime) (c : ChannelId) (binding : Option Binding) :
    Runtime × List ControlOutputMsg :=
  let rt1 := { rt with bindings := removeLeft rt.bindings c }
  let rt2 := match binding with
    | some b => { rt1 with bindings := addEdge rt1.bindings c b }
    | Option.none => rt1
  (rt2, rt2.update_channel c)

/-- `Runtime::menu_select` (`core.rs` lines 305-313): with no open menu,
do nothing; otherwise bind the current option and close the menu. The
source indexes `options[current_index]` (a panic when out of range, which
an open menu never is); the total model reads it with a dummy default. -/
def Runtime.menu_select (rt : Runtime) (c : ChannelId) : Runtime × List ControlOutputMsg :=
  match alookup rt.menus c with
  | Option.none => (rt, [])
  | some menu =>
    let option := menu.options.getD menu.current_index ⟨"", Option.none⟩
    let (rt1, outs1) := rt.bind c option.binding
    let (rt2, outs2) := rt1.close_menu c
    (rt2, outs1 ++ outs2)

/-- The `ControlInput::ChannelInput` arm of `Runtime::run` (`core.rs`
lines 159-226): the state after the input, the `AudioControl`s sent to
the audio backend and the `ControlOutput`s sent to the HID worker. -/
def Runtime.handle_channel_input (rt : Runtime) (c : ChannelId) (inp : ChannelInput) :
    Runtime × List AudioControlMsg × List ControlOutputMsg :=
  match inp with
  | ChannelInput.SetVolume v => (rt, rt.stream_controls c (StreamControl.SetVolume v), [])
  | ChannelInput.StepVolume n => (rt, rt.stream_controls c (StreamControl.StepVolume n), [])
  | ChannelInput.SetMuted b => (rt, rt.stream_controls c (StreamControl.SetMuted b), [])
  | ChannelInput.ToggleMuted => (rt, rt.stream_controls c StreamControl.ToggleMuted, [])
  | ChannelInput.OpenMenu => let (rt1, outs) := rt.open_menu c; (rt1, [], outs)
  | ChannelInput.CloseMenu => let (rt1, outs) := rt.close_menu c; (rt1, [], outs)
  | ChannelInput.MenuNext => (rt.menu_next c, [], [])
  | ChannelInput.MenuPrevious => (rt.menu_previous c, [], [])
  | ChannelInput.MenuSelect => let (rt1, outs) := rt.menu_select c; (rt1, [], outs)

/-! ### Concrete states used as inputs to witnesses and counterexamples -/

/-- A report whose channel-0 encoder delta is at the upper `i8` bound. -/
def reportAt127 : Report := { Report.new with encoders := Function.update Report.new.encoders 0 127 }

/-- I/O scripts of a worker tick where device 1's read fails and
device 2 has no data pending. -/
def failingScript : DeviceId → PollScript := fun d =>
  if d = 1 then ⟨0, [Except.error HidError.readFailed], true, false⟩ else ⟨0, [], true, false⟩

/-- The empty coordinator state. -/
def rtEmpty : Runtime := ⟨[], [], [], Option.none, Option.none⟩

/-- A coordinator state with channel `(0,0)` bound `Direct 7` while
stream `7` is absent from the registry: a dangling binding. -/
def rtDangling : Runtime := ⟨[], [(⟨0, 0⟩, Binding.Direct 7)], [], Option.none, Option.none⟩

/-- A coordinator state where stream `5` is registered, is the default
device, and channel `(0,0)` is bound `DefaultDevice`; no window focus. -/
def rtDefaultBound : Runtime :=
  ⟨[(5, ⟨"dev", ⟨0, false⟩⟩)], [(⟨0, 0⟩, Binding.DefaultDevice)], [], Option.none, some 5⟩

/-- A coordinator state where channel `(0,0)` has an open menu whose
current option is `None` (no binding). -/
def rtNoneMenu : Runtime :=
  ⟨[], [], [(⟨0, 0⟩, ⟨[⟨"None", Option.none⟩], 0⟩)], Option.none, Option.none⟩

/-- A coordinator state where channel `(0,0)` is bound `ActiveWindow`
and has an open menu sitting on a `Direct 7` option, with stream `7`
registered. -/
def rtMenuDirect : Runtime :=
  ⟨[(7, ⟨"spotify", ⟨2, false⟩⟩)],
   [(⟨0, 0⟩, Binding.ActiveWindow)],
   [(⟨0, 0⟩, ⟨[⟨"None", Option.none⟩, ⟨"spotify", some (Binding.Direct 7)⟩], 1⟩)],
   Option.none, Option.none⟩

end WindowMaster

namespace WindowMaster

/-! ### Theorems: firmware claims -/

/-- C1: On each poll of the quadrature decoder, with the index computed
from pins `(a,b)` by the Gray-code mapping `(0,0)=0, (1,0)=1, (1,1)=2,
(0,1)=3`: if `old_index` is `none` the poll returns `Step.none`;
otherwise, letting `d = (new_index + 4 - old_index) % 4`, the poll
returns `none` for `d=0`, `forward` for `d=1`, the `skipped` error for
`d=2` and `backward` for `d=3`; and in every case (including the skip
error) `new_index` is stored as the new `old_index`. -/
theorem quadrature_poll_spec (a b : Bool) (old : Int) (h0 : 0 ≤ old) (h1 : old < 4) :
    (Quadrature.poll ⟨Option.none⟩ a b = (Except.ok Step.none, ⟨some (index a b)⟩)) ∧
    (Quadrature.poll ⟨some old⟩ a b).2 = ⟨some (index a b)⟩ ∧
    (Quadrature.poll ⟨some old⟩ a b).1 =
      (if (index a b + 4 - old) % 4 = 0 then Except.ok Step.none
       else if (index a b + 4 - old) % 4 = 1 then Except.ok Step.forward
       else if (index a b + 4 - old) % 4 = 2 then Except.error EncoderError.skipped
       else Except.ok Step.backward) := by
  have : old = 0 ∨ old = 1 ∨ old = 2 ∨ old = 3 := by omega
  rcases this with rfl | rfl | rfl | rfl <;> cases a <;> cases b <;> exact ⟨rfl, rfl, rfl⟩

/-- Witness for C1: a concrete poll, from index 2 with pins `(1,0)`
(index 1), gives `d = 3`, i.e. a backward step, and stores index 1. -/
theorem quadrature_poll_spec_witness :
    (Quadrature.poll ⟨Option.none⟩ true false = (Except.ok Step.none, ⟨some 1⟩)) ∧
    (Quadrature.poll ⟨some 2⟩ true false).2 = ⟨some 1⟩ ∧
    (Quadrature.poll ⟨some 2⟩ true false).1 =
      (if ((1 : Int) + 4 - 2) % 4 = 0 then Except.ok Step.none
       else if ((1 : Int) + 4 - 2) % 4 = 1 then Except.ok Step.forward
       else if ((1 : Int) + 4 - 2) % 4 = 2 then Except.error EncoderError.skipped
       else Except.ok Step.backward) :=
  quadrature_poll_spec true false 2 (by decide) (by decide)

/-- C9: whenever `push_input` is accepted during `UsbHid::poll`, the
staged report is reset: all six encoder delta fields become zero and the
buttons byte is unchanged — for every prior report content and every
`pull_raw_output` outcome. -/
theorem push_input_clears_encoders (pull : Option (List Nat)) (r : Report) :
    ((UsbHid.poll true true pull r).encoders = fun _ => 0) ∧
    (UsbHid.poll true true pull r).buttons = r.buttons := by
  cases pull <;> exact ⟨rfl, rfl⟩

/-- C5 (code bug): the source's `UsbHid::poll` reads the pulled output
report into a local buffer and drops it (`TODO leds`, `link.rs` line 66),
so the stored led mask is never updated: after receiving the output byte
`0x01`, `is_led_on 0` still reads the stale initial mask (`false`) even
though bit 0 of the received mask is set. -/
theorem pull_output_ignored :
    (UsbHid.poll true true (some [1]) Report.new).leds = 0 ∧
    UsbHid.is_led_on (UsbHid.poll true true (some [1]) Report.new) 0 = false ∧
    Nat.testBit 1 0 = true :=
  ⟨rfl, rfl, rfl⟩

/-- C8 (counterexample): `update_encoder` is not saturating. At
`encoders[0] = 127` a forward step wraps to `-128`; saturating `i8`
arithmetic (clamping `127 + 1` into `[-128, 127]`) would pin at `127`. -/
theorem update_encoder_not_saturating :
    (UsbHid.update_encoder reportAt127 0 Step.forward).encoders 0 = -128 ∧
    max (-128) (min 127 ((127 : Int) + Step.value Step.forward)) = 127 ∧
    ((-128 : Int) ≠ 127) := by
  refine ⟨?_, by decide, by decide⟩
  simp [UsbHid.update_encoder, reportAt127, Report.new, wrap8, Step.value]

/-- C8 (amended): `update_encoder i step` adds `step.value ∈ {-1,0,1}` to
`report.encoders[i]` with wrapping (two's-complement) `i8` arithmetic:
the updated field equals `wrap8 (old + step.value)`, every other encoder
field and the buttons byte are unchanged, the wrap agrees with plain
addition whenever the sum stays in `[-128, 127]`, and at the bounds it
wraps (`127 + 1 ↦ -128`, `-128 - 1 ↦ 127`) instead of pinning. -/
theorem update_encoder_wraps (r : Report) (i : Fin 6) (s : Step) :
    (UsbHid.update_encoder r i s).encoders i = wrap8 (r.encoders i + s.value) ∧
    (∀ j : Fin 6, j ≠ i → (UsbHid.update_encoder r i s).encoders j = r.encoders j) ∧
    (UsbHid.update_encoder r i s).buttons = r.buttons ∧
    wrap8 (127 + 1) = -128 ∧ wrap8 (-128 + -1) = 127 ∧
    (∀ v : Int, -128 ≤ v + s.value → v + s.value ≤ 127 → wrap8 (v + s.value) = v + s.value) := by
  refine ⟨?_, ?_, rfl, by decide, by decide, ?_⟩
  · simp [UsbHid.update_encoder]
  · intro j hj
    simp [UsbHid.update_encoder, Function.update, hj]
  · intro v hlo hhi
    unfold wrap8
    omega

/-- Witness for C8 (amended): at the concrete report with
`encoders[0] = 127`, a forward step stores `wrap8 (127 + 1)` and leaves
channel 1 untouched. -/
theorem update_encoder_wraps_witness :
    (UsbHid.update_encoder reportAt127 0 Step.forward).encoders 0 =
      wrap8 (reportAt127.encoders 0 + Step.value Step.forward) ∧
    (UsbHid.update_encoder reportAt127 0 Step.forward).encoders 1 = reportAt127.encoders 1 :=
  ⟨(update_encoder_wraps reportAt127 0 Step.forward).1,
   (update_encoder_wraps reportAt127 0 Step.forward).2.1 1 (by decide)⟩

/-! ### Theorems: host HID worker claims -/

/-- A held sample on an armed channel before the deadline changes
nothing. -/
lemma button_step_armed_lt (now d : Nat) (m : Bool) (st : StreamState) (h : ¬ d ≤ now) :
    button_step now true ⟨true, false, some d, m, st⟩ = (⟨true, false, some d, m, st⟩, []) := by
  simp [button_step, h]

/-- A held sample on an armed channel at or past the deadline fires the
menu event and latches the long press. -/
lemma button_step_armed_ge (now d : Nat) (m : Bool) (st : StreamState) (h : d ≤ now) :
    button_step now true ⟨true, false, some d, m, st⟩ =
      (⟨true, true, Option.none, m, st⟩,
       [if m then ChannelInput.CloseMenu else ChannelInput.OpenMenu]) := by
  simp [button_step, h]

/-- A held sample on a latched channel is inert. -/
lemma button_step_latched (now : Nat) (m : Bool) (st : StreamState) :
    button_step now true ⟨true, true, Option.none, m, st⟩ =
      (⟨true, true, Option.none, m, st⟩, []) := by
  simp [button_step]

/-- A release sample emits the short-press event unless the long press
was latched, and clears the press-tracking fields. -/
lemma button_step_release (now : Nat) (lp : Bool) (dl : Option Nat) (m : Bool)
    (st : StreamState) :
    button_step now false ⟨true, lp, dl, m, st⟩ =
      (⟨false, false, Option.none, m, st⟩,
       if lp then [] else [if m then ChannelInput.MenuSelect else ChannelInput.ToggleMuted]) := by
  cases lp <;> simp [button_step]

/-- Once a long press has been latched (`long_pressed` set, deadline
cleared), further held samples change nothing and emit nothing. -/
lemma button_run_latched (held : List Nat) (m : Bool) (st : StreamState) :
    button_run (held.map fun t => (t, true)) ⟨true, true, Option.none, m, st⟩ =
      (⟨true, true, Option.none, m, st⟩, []) := by
  induction held with
  | nil => rfl
  | cons t ts ih => simp [button_run, button_step_latched, ih]

/-- From an armed state (held, deadline `d` pending), a run of held
samples either stays armed (all samples before the deadline) or fires
the single menu event at the first sample past the deadline and latches. -/
lemma button_run_armed (held : List Nat) (d : Nat) (m : Bool) (st : StreamState) :
    button_run (held.map fun t => (t, true)) ⟨true, false, some d, m, st⟩ =
      (if held.all fun t => decide (t < d) then
        (⟨true, false, some d, m, st⟩, ([] : List ChannelInput))
       else
        (⟨true, true, Option.none, m, st⟩,
         [if m then ChannelInput.CloseMenu else ChannelInput.OpenMenu])) := by
  induction held with
  | nil => rfl
  | cons t ts ih =>
    rw [List.map_cons]
    by_cases h : d ≤ t
    · have hna : ¬ ((t :: ts).all fun u => decide (u < d)) = true := by
        simp only [List.all_cons, Bool.and_eq_true, decide_eq_true_eq]
        intro hc
        exact absurd hc.1 (not_lt.mpr h)
      simp [button_run, button_step_armed_ge t d m st h, button_run_latched, hna]
    · have ht : decide (t < d) = true := by
        simp only [decide_eq_true_eq]
        omega
      by_cases hall : (ts.all fun u => decide (u < d)) = true
      · simp [button_run, button_step_armed_lt t d m st h, ih, hall, ht]
      · simp [button_run, button_step_armed_lt t d m st h, ih, hall, ht]

/-- Splitting a sample run at an append boundary. -/
lemma button_run_append (xs ys : List (Nat × Bool)) (c : ChannelState) :
    button_run (xs ++ ys) c =
      ((button_run ys (button_run xs c).1).1,
       (button_run xs c).2 ++ (button_run ys (button_run xs c).1).2) := by
  induction xs generalizing c with
  | nil => simp [button_run]
  | cons p ps ih =>
    obtain ⟨now, b⟩ := p
    simp [button_run, ih]

/-- C4: for a press-release sequence observed by the host HID worker on
one channel (a rising-edge sample at `t0`, held samples at the times in
`held`, a release sample at `tr`, from the idle state with the menu-open
flag `m`): if every held sample is observed strictly before the 500 ms
deadline `t0 + 500`, exactly one event is emitted, at release —
`MenuSelect` when the menu is open, `ToggleMuted` otherwise; if some held
sample reaches the deadline, exactly one event is emitted — `CloseMenu`
when the menu is open, `OpenMenu` otherwise — and it is already emitted
during the held samples (second conjunct), with nothing further at
release. -/
theorem long_press_semantics (m : Bool) (t0 : Nat) (held : List Nat) (tr : Nat) :
    (button_run ((t0, true) :: (held.map (fun t => (t, true)) ++ [(tr, false)]))
        (ChannelState.idle m)).2 =
      (if held.all (fun t => decide (t < t0 + LONG_PRESS_DURATION)) then
        [if m then ChannelInput.MenuSelect else ChannelInput.ToggleMuted]
       else [if m then ChannelInput.CloseMenu else ChannelInput.OpenMenu]) ∧
    (button_run ((t0, true) :: held.map (fun t => (t, true))) (ChannelState.idle m)).2 =
      (if held.all (fun t => decide (t < t0 + LONG_PRESS_DURATION)) then ([] : List ChannelInput)
       else [if m then ChannelInput.CloseMenu else ChannelInput.OpenMenu]) := by
  have h0 : ¬ t0 + LONG_PRESS_DURATION ≤ t0 := by simp [LONG_PRESS_DURATION]
  have step0 : button_step t0 true (ChannelState.idle m) =
      (⟨true, false, some (t0 + LONG_PRESS_DURATION), m, StreamState.default⟩, []) := by
    simp [button_step, ChannelState.idle, h0]
  constructor
  · by_cases hall : (held.all fun t => decide (t < t0 + LONG_PRESS_DURATION)) = true <;>
      simp [button_run, step0, button_run_append,
        button_run_armed held (t0 + LONG_PRESS_DURATION) m StreamState.default, hall,
        button_step_release]
  · by_cases hall : (held.all fun t => decide (t < t0 + LONG_PRESS_DURATION)) = true <;>
      simp [button_run, step0,
        button_run_armed held (t0 + LONG_PRESS_DURATION) m StreamState.default, hall]

/-- C7 (counterexample): a failed read is not fatal to the device's
registry entry. With device 1's read failing while device 2 is healthy,
`Device::poll` for device 1 returns the error, yet after the polling
pass the registry still holds both devices — not just device 2 as the
claim's drop-on-failure behavior would give. -/
theorem device_error_not_dropped :
    (device_poll (failingScript 1) Rev1State.new).result = Except.error HidError.readFailed ∧
    (poll_pass [(1, Rev1State.new), (2, Rev1State.new)] failingScript).map Prod.fst = [1, 2] ∧
    ([1, 2] : List DeviceId) ≠ [2] := by
  refine ⟨rfl, rfl, by decide⟩

/-- C7 (amended): a read or write failure of `Device::poll` is ignored
by the worker's polling pass (`.ok()`): the registry keeps exactly the
same device ids, and every device — the failing one included — stays
registered with the state its own poll produced, while the other
devices are still polled. Removal happens only in the enumeration pass
when a device key disappears. -/
theorem poll_pass_keeps_registry (devices : List (DeviceId × Rev1State))
    (io : DeviceId → PollScript) :
    (poll_pass devices io).map Prod.fst = devices.map Prod.fst ∧
    ∀ p ∈ devices, (p.1, (device_poll (io p.1) p.2).state) ∈ poll_pass devices io := by
  constructor
  · simp [poll_pass]
  · intro p hp
    exact List.mem_map_of_mem _ hp

/-- Witness for C7 (amended): on the failing-read tick, the registry
keys stay `[1, 2]` and device 1 stays registered with its post-poll
state. -/
theorem poll_pass_keeps_registry_witness :
    (poll_pass [(1, Rev1State.new), (2, Rev1State.new)] failingScript).map Prod.fst = [1, 2] ∧
    ((1 : DeviceId), (device_poll (failingScript 1) Rev1State.new).state) ∈
      poll_pass [(1, Rev1State.new), (2, Rev1State.new)] failingScript :=
  ⟨(poll_pass_keeps_registry [(1, Rev1State.new), (2, Rev1State.new)] failingScript).1,
   (poll_pass_keeps_registry [(1, Rev1State.new), (2, Rev1State.new)] failingScript).2
     (1, Rev1State.new) (by simp)⟩

/-! ### Theorems: host coordinator claims -/

/-- `aupdate` at an absent key is the identity. -/
lemma aupdate_of_alookup_none {α β : Type} [DecidableEq α] (m : List (α × β)) (k : α)
    (f : β → β) (h : alookup m k = Option.none) : aupdate m k f = m := by
  induction m with
  | nil => rfl
  | cons p ps ih =>
    by_cases hk : p.1 = k
    · simp [alookup, hk] at h
    · simp only [alookup, hk, if_false] at h
      have hps := ih h
      simp only [aupdate] at hps ⊢
      simp [hk, hps]

/-- An edge of the graph appears among its left endpoint's neighbors. -/
lemma mem_edgesOfLeft {L R : Type} [DecidableEq L] {es : List (L × R)} {l : L} {r : R}
    (h : (l, r) ∈ es) : r ∈ edgesOfLeft es l := by
  simp only [edgesOfLeft, List.mem_map, List.mem_filter]
  exact ⟨(l, r), ⟨h, by simp⟩, rfl⟩

/-- After `remove_left l`, the left node `l` has no neighbors. -/
lemma edgesOfLeft_removeLeft {L R : Type} [DecidableEq L] (es : List (L × R)) (l : L) :
    edgesOfLeft (removeLeft es l) l = [] := by
  simp [removeLeft, edgesOfLeft, List.filter_filter]

/-- Adding an edge from `l` right after `remove_left l` always appends:
the edge cannot already be present. -/
lemma addEdge_removeLeft {L R : Type} [DecidableEq L] [DecidableEq R] (es : List (L × R))
    (l : L) (r : R) : addEdge (removeLeft es l) l r = removeLeft es l ++ [(l, r)] := by
  unfold addEdge
  rw [if_neg]
  intro hmem
  have := (List.mem_filter.mp hmem).2
  simp at this

/-- Neighbor lists distribute over edge-list concatenation. -/
lemma edgesOfLeft_append {L R : Type} [DecidableEq L] (xs ys : List (L × R)) (l : L) :
    edgesOfLeft (xs ++ ys) l = edgesOfLeft xs l ++ edgesOfLeft ys l := by
  simp [edgesOfLeft, List.filter_append]

/-- The single edge `(l, r)` contributes the single neighbor `r`. -/
lemma edgesOfLeft_singleton {L R : Type} [DecidableEq L] (l : L) (r : R) :
    edgesOfLeft [(l, r)] l = [r] := by
  simp [edgesOfLeft]

/-- The resolved state of a binding does not depend on the binding graph
or the menus. -/
lemma resolved_state_update (rt : Runtime) (es : List (ChannelId × Binding))
    (ms : List (ChannelId × Menu)) (b : Binding) :
    Runtime.resolved_state { rt with bindings := es, menus := ms } b = rt.resolved_state b := by
  cases b <;> rfl

/-- C10: with no open menu for the channel, `MenuNext`, `MenuPrevious`
and `MenuSelect` leave the whole coordinator state unchanged and send
nothing on either outbound channel. -/
theorem menu_input_without_menu_is_noop (rt : Runtime) (c : ChannelId)
    (h : alookup rt.menus c = Option.none) :
    rt.handle_channel_input c ChannelInput.MenuNext = (rt, [], []) ∧
    rt.handle_channel_input c ChannelInput.MenuPrevious = (rt, [], []) ∧
    rt.handle_channel_input c ChannelInput.MenuSelect = (rt, [], []) := by
  refine ⟨?_, ?_, ?_⟩
  · simp [Runtime.handle_channel_input, Runtime.menu_next, aupdate_of_alookup_none _ _ _ h]
  · simp [Runtime.handle_channel_input, Runtime.menu_previous, aupdate_of_alookup_none _ _ _ h]
  · simp [Runtime.handle_channel_input, Runtime.menu_select, h]

/-- Witness for C10: in the empty coordinator state, `MenuSelect` for
channel `(0,0)` is a no-op. -/
theorem menu_input_without_menu_is_noop_witness :
    rtEmpty.handle_channel_input ⟨0, 0⟩ ChannelInput.MenuSelect = (rtEmpty, [], []) :=
  (menu_input_without_menu_is_noop rtEmpty ⟨0, 0⟩ rfl).2.2

/-- C2 (counterexample): with channel `(0,0)` bound `Direct 7` and
stream 7 removed from the registry, a `ToggleMuted` input still emits a
`StreamControl` for stream 7 to the audio backend — `Direct` bindings
resolve unconditionally — contradicting the claim that no control is
emitted for a dangling binding. -/
theorem dangling_direct_emits_control :
    (rtDangling.handle_channel_input ⟨0, 0⟩ ChannelInput.ToggleMuted).2.1 =
      [⟨7, StreamControl.ToggleMuted⟩] ∧
    (rtDangling.handle_channel_input ⟨0, 0⟩ ChannelInput.ToggleMuted).2.1 ≠ [] := by
  refine ⟨rfl, by decide⟩

/-- C2 (amended): a dangling `Direct s` binding evaluates to
`StreamState::default()` — state queries for the channel report the
default state — but volume and mute inputs for the channel still emit
the corresponding `StreamControl` for `s` (dropped downstream by the
audio backend as an unknown stream id). -/
theorem dangling_direct_evaluates_default (rt : Runtime) (c : ChannelId) (s : StreamId)
    (hdangling : alookup rt.streams s = Option.none)
    (hedge : (c, Binding.Direct s) ∈ rt.bindings) :
    rt.get_binding_state (Binding.Direct s) = Option.none ∧
    rt.resolved_state (Binding.Direct s) = StreamState.default ∧
    (⟨c.device, c.channel_index, ChannelOutput.StateChanged StreamState.default⟩ :
        ControlOutputMsg) ∈ rt.update_channel c ∧
    (⟨s, StreamControl.ToggleMuted⟩ : AudioControlMsg) ∈
      (rt.handle_channel_input c ChannelInput.ToggleMuted).2.1 ∧
    (∀ v : Int, (⟨s, StreamControl.SetVolume v⟩ : AudioControlMsg) ∈
      (rt.handle_channel_input c (ChannelInput.SetVolume v)).2.1) ∧
    (∀ n : Int, (⟨s, StreamControl.StepVolume n⟩ : AudioControlMsg) ∈
      (rt.handle_channel_input c (ChannelInput.StepVolume n)).2.1) ∧
    (∀ b : Bool, (⟨s, StreamControl.SetMuted b⟩ : AudioControlMsg) ∈
      (rt.handle_channel_input c (ChannelInput.SetMuted b)).2.1) := by
  have hget : rt.get_binding_state (Binding.Direct s) = Option.none := by
    simp [Runtime.get_binding_state, Runtime.binding_stream_id, hdangling]
  have hres : rt.resolved_state (Binding.Direct s) = StreamState.default := by
    simp [Runtime.resolved_state, hget]
  have hnb : Binding.Direct s ∈ edgesOfLeft rt.bindings c := mem_edgesOfLeft hedge
  have hctl : ∀ sc : StreamControl,
      (⟨s, sc⟩ : AudioControlMsg) ∈ rt.stream_controls c sc := by
    intro sc
    simp only [Runtime.stream_controls, List.mem_filterMap]
    exact ⟨Binding.Direct s, hnb, rfl⟩
  refine ⟨hget, hres, ?_, hctl _, fun v => hctl _, fun n => hctl _, fun b => hctl _⟩
  · have := List.mem_map_of_mem
      (fun b => (⟨c.device, c.channel_index, ChannelOutput.StateChanged (rt.resolved_state b)⟩ :
        ControlOutputMsg)) hnb
    simpa [Runtime.update_channel, hres] using this

/-- Witness for C2 (amended): at the concrete dangling state, channel
`(0,0)` evaluates to the default state yet `ToggleMuted` emits a
control for stream 7. -/
theorem dangling_direct_evaluates_default_witness :
    rtDangling.resolved_state (Binding.Direct 7) = StreamState.default ∧
    (⟨7, StreamControl.ToggleMuted⟩ : AudioControlMsg) ∈
      (rtDangling.handle_channel_input ⟨0, 0⟩ ChannelInput.ToggleMuted).2.1 :=
  ⟨(dangling_direct_evaluates_default rtDangling ⟨0, 0⟩ 7 rfl (by simp [rtDangling])).2.1,
   (dangling_direct_evaluates_default rtDangling ⟨0, 0⟩ 7 rfl (by simp [rtDangling])).2.2.2.1⟩

/-- C3 (code bug): `handle_state_changed` never consults
`default_device`. With stream 5 registered, `default_device = some 5`
and channel `(0,0)` bound `DefaultDevice`, a `StateChanged` for
stream 5 updates the registry but sends *no* `ChannelOutput` at all —
the channel bound `DefaultDevice` is not updated, against the spec. -/
theorem state_changed_ignores_default_device :
    (rtDefaultBound.handle_state_changed 5 ⟨3, true⟩).2 = [] ∧
    alookup (rtDefaultBound.handle_state_changed 5 ⟨3, true⟩).1.streams 5 =
      some ⟨"dev", ⟨3, true⟩⟩ ∧
    rtDefaultBound.default_device = some 5 ∧
    ((⟨0, 0⟩, Binding.DefaultDevice) : ChannelId × Binding) ∈ rtDefaultBound.bindings := by
  refine ⟨rfl, rfl, rfl, by simp [rtDefaultBound]⟩

/-- C6 (counterexample): selecting the `None` option (binding `none`)
emits only `MenuClosed`: no `StateChanged` is sent for the channel,
contradicting the claim that a `StateChanged` (default when unresolved)
always follows a `MenuSelect`. -/
theorem menu_select_none_emits_no_state :
    (Runtime.menu_select rtNoneMenu ⟨0, 0⟩).2 = [⟨0, 0, ChannelOutput.MenuClosed⟩] ∧
    ∀ st : StreamState, (⟨0, 0, ChannelOutput.StateChanged st⟩ : ControlOutputMsg) ∉
      (Runtime.menu_select rtNoneMenu ⟨0, 0⟩).2 := by
  have heq : (Runtime.menu_select rtNoneMenu ⟨0, 0⟩).2 =
      [⟨0, 0, ChannelOutput.MenuClosed⟩] := rfl
  refine ⟨heq, ?_⟩
  intro st hs
  rw [heq] at hs
  simp at hs

/-- C6 (amended): with an open menu, `MenuSelect` removes every edge of
the channel and adds the edge to the selected option's binding iff it is
`some b`; the menu entry is removed; streams, focus and default-device
slots are untouched; no audio control is sent; and the `ChannelOutput`s
sent are: when the option's binding is `some b`, exactly one
`StateChanged` carrying `b`'s resolved state (default when dangling or
unresolved) followed by `MenuClosed`; when the option's binding is
`none`, only `MenuClosed`. -/
theorem menu_select_rebinds (rt : Runtime) (c : ChannelId) (menu : Menu)
    (h : alookup rt.menus c = some menu)
    (_hidx : menu.current_index < menu.options.length) :
    (rt.handle_channel_input c ChannelInput.MenuSelect).2.1 = [] ∧
    (rt.handle_channel_input c ChannelInput.MenuSelect).1.bindings =
      removeLeft rt.bindings c ++
        (match (menu.options.getD menu.current_index ⟨"", Option.none⟩).binding with
         | some b => [(c, b)]
         | Option.none => []) ∧
    (rt.handle_channel_input c ChannelInput.MenuSelect).1.menus = aremove rt.menus c ∧
    (rt.handle_channel_input c ChannelInput.MenuSelect).1.streams = rt.streams ∧
    (rt.handle_channel_input c ChannelInput.MenuSelect).1.window_focus = rt.window_focus ∧
    (rt.handle_channel_input c ChannelInput.MenuSelect).1.default_device = rt.default_device ∧
    (rt.handle_channel_input c ChannelInput.MenuSelect).2.2 =
      (match (menu.options.getD menu.current_index ⟨"", Option.none⟩).binding with
       | some b => [⟨c.device, c.channel_index,
           ChannelOutput.StateChanged (rt.resolved_state b)⟩]
       | Option.none => []) ++
      [⟨c.device, c.channel_index, ChannelOutput.MenuClosed⟩] := by
  simp only [Runtime.handle_channel_input, Runtime.menu_select, h]
  cases hopt : (menu.options.getD menu.current_index ⟨"", Option.none⟩).binding with
  | none =>
    simp only [Runtime.bind, Runtime.close_menu, Runtime.update_channel,
      edgesOfLeft_removeLeft, List.map_nil, List.nil_append]
    simp
  | some b =>
    simp only [Runtime.bind, Runtime.close_menu, Runtime.update_channel, addEdge_removeLeft,
      edgesOfLeft_append, edgesOfLeft_removeLeft, edgesOfLeft_singleton, List.nil_append,
      List.map_cons, List.map_nil, resolved_state_update]
    simp

/-- Witness for C6 (amended): selecting the `Direct 7` option for
channel `(0,0)` replaces its `ActiveWindow` edge with the `Direct 7`
edge and sends exactly `StateChanged {2, false}` then `MenuClosed`. -/
theorem menu_select_rebinds_witness :
    (rtMenuDirect.handle_channel_input ⟨0, 0⟩ ChannelInput.MenuSelect).1.bindings =
      [(⟨0, 0⟩, Binding.Direct 7)] ∧
    (rtMenuDirect.handle_channel_input ⟨0, 0⟩ ChannelInput.MenuSelect).2.2 =
      [⟨0, 0, ChannelOutput.StateChanged ⟨2, false⟩⟩, ⟨0, 0, ChannelOutput.MenuClosed⟩] :=
  ⟨(menu_select_rebinds rtMenuDirect ⟨0, 0⟩
      ⟨[⟨"None", Option.none⟩, ⟨"spotify", some (Binding.Direct 7)⟩], 1⟩ rfl
      (by decide)).2.1,
   (menu_select_rebinds rtMenuDirect ⟨0, 0⟩
      ⟨[⟨"None", Option.none⟩, ⟨"spotify", some (Binding.Direct 7)⟩], 1⟩ rfl
      (by decide)).2.2.2.2.2.2⟩

end WindowMaster
